import Mathlib

/-!
Shallow embedding of the `mcp-server-monday` adapter
(`src/mcp_server_monday/document.py` and `src/mcp_server_monday/tools.py`).

Python strings are modelled as Lean `String`/`List Char`; parsed JSON values
as the inductive `Json`; a handler that can raise is a function into
`Except PyErr`.  The API gateway call (`monday_client.custom._query`) is
modelled by passing the parsed response as an explicit argument: each handler
splits into a pure query/mutation builder and a pure response normalizer,
matching the build / execute / normalize shape of the source.
-/

set_option maxRecDepth 4000

/-! ### Generic list-of-characters utilities (substring occurrence) -/

/-- `isPre n l` holds when `n` is an initial segment of `l`. -/
def isPre : List Char → List Char → Bool
  | [], _ => true
  | _ :: _, [] => false
  | a :: as, b :: bs => a = b && isPre as bs

/-- `hasSub n l` holds when `n` occurs contiguously somewhere inside `l`. -/
def hasSub (n : List Char) : List Char → Bool
  | [] => isPre n []
  | c :: rest => isPre n (c :: rest) || hasSub n rest

/-! ### Quote escaping (`content.replace('"', '\\"')` in `document.py`) -/

/-- Character-level model of Python `s.replace('"', '\\"')`: every double
quote is replaced by a backslash followed by a double quote. -/
def escapeQuotesChars : List Char → List Char
  | [] => []
  | c :: rest => if c = '\"' then '\\' :: '\"' :: escapeQuotesChars rest
                 else c :: escapeQuotesChars rest

/-- `escaped_content = content.replace('"', '\\"')` from
`handle_monday_create_doc` / `handle_monday_add_doc_block`. -/
def escapeQuotes (s : String) : String := String.mk (escapeQuotesChars s.data)

/-- Scanner state: `quotesEscAux prev l` checks that every `"` in `l` is
immediately preceded by a backslash (`prev` is the character just before
`l`; the initial `prev` is the literal's opening quote). -/
def quotesEscAux : Char → List Char → Bool
  | _, [] => true
  | prev, c :: rest => (!(c = '\"') || (prev = '\\')) && quotesEscAux c rest

/-- Every `"` in a literal body is immediately preceded by `\`. -/
def quotesEsc (l : List Char) : Bool := quotesEscAux '\"' l

/-! ### Python JSON values

The parsed-JSON data that flows through the handlers.  Floats (which the
handlers never inspect beyond truthiness) are kept symbolic as a decimal
mantissa/exponent pair; `nan`/`inf` cover the non-finite literals Python's
`json.loads` accepts. -/

inductive Json where
  | null
  | bool (b : Bool)
  | num (n : Int)
  | fnum (m : Int) (e : Int)
  | nan
  | inf (neg : Bool)
  | str (s : String)
  | arr (elems : List Json)
  | obj (fields : List (String × Json))

/-- A parsed JSON object / Python dict, as the gateway returns it. -/
abbrev Dict := List (String × Json)

/-- First-match key lookup in a dict (JSON objects carry unique keys). -/
def lookupField : Dict → String → Option Json
  | [], _ => none
  | (k, v) :: rest, key => if k = key then some v else lookupField rest key

/-- Raisable Python exceptions reachable in the embedded handlers. -/
inductive PyErr where
  | keyError (k : String)
  | indexError (msg : String)
  | typeError (msg : String)
  | attributeError (msg : String)
  | jsonDecodeError (msg : String)
deriving DecidableEq, Repr

/-- Python truthiness of a parsed JSON value. -/
def truthy : Json → Bool
  | .null => false
  | .bool b => b
  | .num n => !(n = 0)
  | .fnum m _ => !(m = 0)
  | .nan => true
  | .inf _ => true
  | .str s => !(s = "")
  | .arr xs => !xs.isEmpty
  | .obj fs => !fs.isEmpty

/-- Truthiness of a `dict.get` result (`None` is falsy). -/
def truthyOpt : Option Json → Bool
  | none => false
  | some j => truthy j

mutual
/-- Python `repr` of a parsed JSON value (used when f-strings render nested
containers; never exercised on floats by the verified paths). -/
def pyRepr : Json → String
  | .null => "None"
  | .bool true => "True"
  | .bool false => "False"
  | .num n => toString n
  | .fnum m e => toString m ++ "e" ++ toString e
  | .nan => "nan"
  | .inf true => "-inf"
  | .inf false => "inf"
  | .str s => "'" ++ s ++ "'"
  | .arr xs => "[" ++ pyReprElems xs ++ "]"
  | .obj fs => "\x7b" ++ pyReprFields fs ++ "\x7d"

def pyReprElems : List Json → String
  | [] => ""
  | [x] => pyRepr x
  | x :: y :: rest => pyRepr x ++ ", " ++ pyReprElems (y :: rest)

def pyReprFields : List (String × Json) → String
  | [] => ""
  | [(k, v)] => "'" ++ k ++ "': " ++ pyRepr v
  | (k, v) :: p :: rest => "'" ++ k ++ "': " ++ pyRepr v ++ ", " ++ pyReprFields (p :: rest)
end

/-- Python `str` of a parsed JSON value, as an f-string renders it. -/
def pyStr : Json → String
  | .null => "None"
  | .bool true => "True"
  | .bool false => "False"
  | .num n => toString n
  | .fnum m e => toString m ++ "e" ++ toString e
  | .nan => "nan"
  | .inf true => "-inf"
  | .inf false => "inf"
  | .str s => s
  | .arr xs => pyRepr (.arr xs)
  | .obj fs => pyRepr (.obj fs)

/-- f-string rendering of a `dict.get` result. -/
def pyStrOpt : Option Json → String
  | none => "None"
  | some j => pyStr j

/-- Python subscript `j[key]` with a string key: `KeyError` on a missing
dict key, `TypeError` on a non-dict. -/
def pySubscript : Json → String → Except PyErr Json
  | .obj fields, key =>
    match lookupField fields key with
    | some v => .ok v
    | none => .error (.keyError key)
  | _, _ => .error (.typeError "value is not subscriptable with a string key")

/-- Python subscript `j[0]`. -/
def pyIndex0 : Json → Except PyErr Json
  | .arr [] => .error (.indexError "list index out of range")
  | .arr (x :: _) => .ok x
  | .str s =>
    match s.data with
    | [] => .error (.indexError "string index out of range")
    | c :: _ => .ok (.str (String.mk [c]))
  | .obj _ => .error (.keyError "0")
  | _ => .error (.typeError "value is not subscriptable")

/-- Python `j.get(key)`: `AttributeError` when `j` is not a dict. -/
def pyGet : Json → String → Except PyErr (Option Json)
  | .obj fields, key => .ok (lookupField fields key)
  | _, _ => .error (.attributeError "value has no attribute get")

/-- Python `j.get(key, default)`. -/
def pyGetD (j : Json) (key : String) (default : Json) : Except PyErr Json :=
  match j with
  | .obj fields => .ok ((lookupField fields key).getD default)
  | _ => .error (.attributeError "value has no attribute get")

/-- Python `for x in j`: lists yield elements, strings yield one-character
strings, dicts yield their keys. -/
def pyIterate : Json → Except PyErr (List Json)
  | .arr xs => .ok xs
  | .str s => .ok (s.data.map fun c => Json.str (String.mk [c]))
  | .obj fs => .ok (fs.map fun p => Json.str p.1)
  | _ => .error (.typeError "value is not iterable")

/-- Python `needle == element` comparison of a string needle against a list
element: only equal strings compare equal. -/
def strMemList (needle : String) : List Json → Bool
  | [] => false
  | .str s :: rest => s = needle || strMemList needle rest
  | _ :: rest => strMemList needle rest

/-- Python `needle in j` for a string needle: key membership for dicts,
element membership for lists, substring for strings, `TypeError` otherwise. -/
def pyContains (needle : String) : Json → Except PyErr Bool
  | .obj fields => .ok ((lookupField fields needle).isSome)
  | .arr xs => .ok (strMemList needle xs)
  | .str s => .ok (hasSub needle.data s.data)
  | _ => .error (.typeError "argument is not a container")

/-! ### Model of Python `json.loads` (used on file-type column values) -/

/-- JSON inter-token whitespace (space, tab, newline, carriage return). -/
def isWsChar (c : Char) : Bool := c = ' ' || c = '\t' || c = '\n' || c = '\x0d'

def skipWs : List Char → List Char
  | [] => []
  | c :: rest => if isWsChar c then skipWs rest else c :: rest

def hexVal (c : Char) : Option Nat :=
  if '0' ≤ c && c ≤ '9' then some (c.toNat - 48)
  else if 'a' ≤ c && c ≤ 'f' then some (c.toNat - 87)
  else if 'A' ≤ c && c ≤ 'F' then some (c.toNat - 55)
  else none

/-- Body of a JSON string literal, after the opening quote; strict mode, so
raw control characters are rejected.  Fuel is the remaining input length. -/
def parseStringBody : Nat → List Char → List Char → Except String (String × List Char)
  | 0, _, _ => .error "Unterminated string"
  | _ + 1, [], _ => .error "Unterminated string"
  | _ + 1, '\"' :: r, acc => .ok (String.mk acc.reverse, r)
  | fuel + 1, '\\' :: r, acc =>
    match r with
    | '\"' :: r2 => parseStringBody fuel r2 ('\"' :: acc)
    | '\\' :: r2 => parseStringBody fuel r2 ('\\' :: acc)
    | '/' :: r2 => parseStringBody fuel r2 ('/' :: acc)
    | 'b' :: r2 => parseStringBody fuel r2 ('\x08' :: acc)
    | 'f' :: r2 => parseStringBody fuel r2 ('\x0c' :: acc)
    | 'n' :: r2 => parseStringBody fuel r2 ('\n' :: acc)
    | 'r' :: r2 => parseStringBody fuel r2 ('\x0d' :: acc)
    | 't' :: r2 => parseStringBody fuel r2 ('\t' :: acc)
    | 'u' :: a :: b :: c :: d :: r2 =>
      match hexVal a, hexVal b, hexVal c, hexVal d with
      | some ha, some hb, some hc, some hd =>
        parseStringBody fuel r2 (Char.ofNat (((ha * 16 + hb) * 16 + hc) * 16 + hd) :: acc)
      | _, _, _, _ => .error "Invalid unicode escape"
    | _ => .error "Invalid escape"
  | fuel + 1, c :: r, acc =>
    if c.toNat < 32 then .error "Invalid control character"
    else parseStringBody fuel r (c :: acc)

def takeDigits : List Char → (List Char × List Char)
  | [] => ([], [])
  | c :: rest =>
    if c.isDigit then
      let p := takeDigits rest
      (c :: p.1, p.2)
    else ([], c :: rest)

def digitsToNatAux (acc : Nat) : List Char → Nat
  | [] => acc
  | c :: rest => digitsToNatAux (acc * 10 + (c.toNat - 48)) rest

/-- Optional fraction part `.digits`. -/
def parseFrac (s : List Char) : Except String (Option (List Char) × List Char)
  :=
  match s with
  | '.' :: rest =>
    let p := takeDigits rest
    if p.1.isEmpty then .error "Expecting digit after decimal point"
    else .ok (some p.1, p.2)
  | _ => .ok (none, s)

/-- Optional exponent part `e[+-]digits`. -/
def parseExponent (s : List Char) : Except String (Option Int × List Char) :=
  match s with
  | 'e' :: rest | 'E' :: rest =>
    let sp : Int × List Char :=
      match rest with
      | '+' :: r => (1, r)
      | '-' :: r => (-1, r)
      | _ => (1, rest)
    let p := takeDigits sp.2
    if p.1.isEmpty then .error "Expecting digit in exponent"
    else .ok (some (sp.1 * (digitsToNatAux 0 p.1 : Int)), p.2)
  | _ => .ok (none, s)

/-- A JSON number: integers become `Json.num`, anything with a fraction or
exponent stays symbolic as `Json.fnum mantissa exponent`.  Leading zeros are
rejected as in Python (a stray `0` stops the int part, leaving trailing
input that the top level reports as extra data). -/
def parseNumber (s : List Char) : Except String (Json × List Char) :=
  let sgn : Bool × List Char :=
    match s with
    | '-' :: rest => (true, rest)
    | _ => (false, s)
  match sgn.2 with
  | [] => .error "Expecting value"
  | c :: rest =>
    if c.isDigit then
      let ip : List Char × List Char :=
        if c = '0' then ([c], rest) else takeDigits (c :: rest)
      match parseFrac ip.2 with
      | .error e => .error e
      | .ok (fracDs, r2) =>
        match parseExponent r2 with
        | .error e => .error e
        | .ok (expV, r3) =>
          let signed : Int → Int := fun x => if sgn.1 then -x else x
          match fracDs, expV with
          | none, none => .ok (.num (signed (digitsToNatAux 0 ip.1 : Int)), r3)
          | _, _ =>
            let fds := fracDs.getD []
            let mant : Int := signed (digitsToNatAux 0 (ip.1 ++ fds) : Int)
            .ok (.fnum mant ((expV.getD 0) - (fds.length : Int)), r3)
    else .error "Expecting value"

/-- Python keeps the first position but the last value for duplicate keys. -/
def insertKey : List (String × Json) → String → Json → List (String × Json)
  | [], key, v => [(key, v)]
  | (k, w) :: rest, key, v =>
    if k = key then (k, v) :: rest else (k, w) :: insertKey rest key v

mutual
/-- One JSON value; `fuel` bounds the number of parse steps (the caller
supplies more fuel than the input length, and every step consumes input,
so well-formed input never exhausts it). -/
def parseValue : Nat → List Char → Except String (Json × List Char)
  | 0, _ => .error "Parse fuel exhausted"
  | fuel + 1, s =>
    match skipWs s with
    | 'n' :: 'u' :: 'l' :: 'l' :: r => .ok (.null, r)
    | 't' :: 'r' :: 'u' :: 'e' :: r => .ok (.bool true, r)
    | 'f' :: 'a' :: 'l' :: 's' :: 'e' :: r => .ok (.bool false, r)
    | 'N' :: 'a' :: 'N' :: r => .ok (.nan, r)
    | 'I' :: 'n' :: 'f' :: 'i' :: 'n' :: 'i' :: 't' :: 'y' :: r => .ok (.inf false, r)
    | '-' :: 'I' :: 'n' :: 'f' :: 'i' :: 'n' :: 'i' :: 't' :: 'y' :: r => .ok (.inf true, r)
    | '\"' :: r =>
      match parseStringBody (r.length + 1) r [] with
      | .error e => .error e
      | .ok (str, r2) => .ok (.str str, r2)
    | '[' :: r =>
      match skipWs r with
      | ']' :: r2 => .ok (.arr [], r2)
      | r2 => parseElems fuel r2 []
    | '\x7b' :: r =>
      match skipWs r with
      | '\x7d' :: r2 => .ok (.obj [], r2)
      | r2 => parseMembers fuel r2 []
    | c :: r => if c.isDigit || c = '-' then parseNumber (c :: r) else .error "Expecting value"
    | [] => .error "Expecting value"

/-- Elements of a non-empty array, starting at a value. -/
def parseElems : Nat → List Char → List Json → Except String (Json × List Char)
  | 0, _, _ => .error "Parse fuel exhausted"
  | fuel + 1, s, acc =>
    match parseValue fuel s with
    | .error e => .error e
    | .ok (v, r) =>
      match skipWs r with
      | ',' :: r2 => parseElems fuel r2 (acc ++ [v])
      | ']' :: r2 => .ok (.arr (acc ++ [v]), r2)
      | _ => .error "Expecting comma delimiter"

/-- Members of a non-empty object, starting at a quoted key. -/
def parseMembers : Nat → List Char → List (String × Json) → Except String (Json × List Char)
  | 0, _, _ => .error "Parse fuel exhausted"
  | fuel + 1, s, acc =>
    match skipWs s with
    | '\"' :: r =>
      match parseStringBody (r.length + 1) r [] with
      | .error e => .error e
      | .ok (key, r2) =>
        match skipWs r2 with
        | ':' :: r3 =>
          match parseValue fuel r3 with
          | .error e => .error e
          | .ok (v, r4) =>
            match skipWs r4 with
            | ',' :: r5 => parseMembers fuel r5 (insertKey acc key v)
            | '\x7d' :: r5 => .ok (.obj (insertKey acc key v), r5)
            | _ => .error "Expecting comma delimiter"
        | _ => .error "Expecting colon delimiter"
    | _ => .error "Expecting property name enclosed in double quotes"
end

/-- Model of `json.loads` on a Python string. -/
def jsonParse (s : String) : Except String Json :=
  match parseValue (s.data.length + 2) s.data with
  | .error e => .error e
  | .ok (j, rest) => if (skipWs rest).isEmpty then .ok j else .error "Extra data"

/-- `json.loads` as called on a column value of unknown runtime type. -/
def jsonLoads : Json → Except PyErr Json
  | .str s =>
    match jsonParse s with
    | .ok j => .ok j
    | .error msg => .error (.jsonDecodeError msg)
  | _ => .error (.typeError "the JSON object must be str, bytes or bytearray")

/-! ### MCP content blocks -/

/-- `types.TextContent(type="text", text=...)` — the only content kind the
adapter produces. -/
structure TextContent where
  type : String
  text : String
deriving DecidableEq, Repr

/-- `return [types.TextContent(type="text", text=s)]`, the single-block
return shape every handler in `document.py` uses. -/
def okText (s : String) : Except PyErr (List TextContent) := .ok [⟨"text", s⟩]

/-! ### Query / mutation builders (`document.py`)

Each is the f-string from the corresponding handler, with the response
call split off; `\x7b`/`\x7d` denote the literal braces of the GraphQL
text. -/

/-- Query text of `handle_monday_get_item_files` (document.py:18-44). -/
def getItemFilesQuery (itemId : String) : String :=
  "\n    query \x7b\n        items (ids: " ++ itemId ++
  ") \x7b\n            name\n            column_values \x7b\n                id\n                title\n                type\n                value\n                text\n            \x7d\n            assets \x7b\n                id\n                name\n                url\n                public_url\n                file_extension\n                file_size\n                created_at\n                uploaded_by \x7b\n                    id\n                    name\n                \x7d\n            \x7d\n        \x7d\n    \x7d\n    "

/-- Query text of `handle_monday_get_update_files` (document.py:106-123). -/
def getUpdateFilesQuery (updateId : String) : String :=
  "\n    query \x7b\n        updates (ids: " ++ updateId ++
  ") \x7b\n            id\n            body\n            created_at\n            assets \x7b\n                id\n                name\n                url\n                public_url\n                file_extension\n                file_size\n                created_at\n            \x7d\n        \x7d\n    \x7d\n    "

/-- `folder_filter = f"filter: {{folder_id: {folder_id}}}" if folder_id else ""`
(document.py:167); `None` and the empty string are both falsy. -/
def getDocsFolderFilter : Option String → String
  | some f => if f = "" then "" else "filter: \x7bfolder_id: " ++ f ++ "\x7d"
  | none => ""

/-- Query text of `handle_monday_get_docs` (document.py:169-180).  The limit
is whatever value the dispatcher extracted (`arguments.get("limit", 25)`),
rendered by the f-string. -/
def getDocsQuery (limit : Json) (folder_id : Option String) : String :=
  "\n    query \x7b\n        docs (limit: " ++ pyStr limit ++ " " ++ getDocsFolderFilter folder_id ++
  ") \x7b\n            id\n            name\n            created_at\n            workspace_id\n            folder_id\n            user_id\n        \x7d\n    \x7d\n    "

/-- Query text of `handle_monday_get_doc_content` (document.py:210-218). -/
def getDocContentQuery (doc_id : String) : String :=
  "\n    query \x7b\n        docs (ids: [" ++ doc_id ++
  "]) \x7b\n            id\n            name\n            content\n        \x7d\n    \x7d\n    "

/-- `folder_param = f", folder_id: {folder_id}" if folder_id else ""`
(document.py:254). -/
def createDocFolderParam : Option String → String
  | some f => if f = "" then "" else ", folder_id: " ++ f
  | none => ""

/-- Mutation text of `handle_monday_create_doc` (document.py:250-265): the
content is quote-escaped, the title is interpolated as given. -/
def createDocMutation (title content : String) (folder_id : Option String) : String :=
  "\n    mutation \x7b\n        create_doc (\n            name: \"" ++ title ++
  "\",\n            content: \"" ++ escapeQuotes content ++ "\"" ++ createDocFolderParam folder_id ++
  "\n        ) \x7b\n            id\n            name\n        \x7d\n    \x7d\n    "

/-- `after_block_param = f", after_block_id: {after_block_id}" if after_block_id else ""`
(document.py:300). -/
def addDocBlockAfterParam : Option String → String
  | some a => if a = "" then "" else ", after_block_id: " ++ a
  | none => ""

/-- Mutation text of `handle_monday_add_doc_block` (document.py:296-314). -/
def addDocBlockMutation (doc_id block_type content : String) (after_block_id : Option String) : String :=
  "\n    mutation \x7b\n        add_doc_block (\n            doc_id: " ++ doc_id ++
  ",\n            type: " ++ block_type ++
  ",\n            content: \"" ++ escapeQuotes content ++ "\"" ++ addDocBlockAfterParam after_block_id ++
  "\n        ) \x7b\n            id\n            type\n        \x7d\n    \x7d\n    "

/-! ### Response normalizers (`document.py`)

Each mirrors the handler's code after `monday_client.custom._query`; the
parsed response is `none` when the gateway returned a falsy value, otherwise
the top-level JSON object. -/

/-- `column.get("type") == "file"`: a string-Enum-free Python `==` against
the string literal — only an equal string compares equal. -/
def isFileType : Option Json → Bool
  | some (.str t) => t = "file"
  | _ => false

/-- One pass of the inner `for file in file_data["files"]` loop
(document.py:63-67). -/
def fileInfoList (column : Json) : List Json → Except PyErr (List String)
  | [] => .ok []
  | f :: rest =>
    match pyGet f "name" with
    | .error e => .error e
    | .ok nO =>
      match pyGet f "url" with
      | .error e => .error e
      | .ok uO =>
        match pyGet column "title" with
        | .error e => .error e
        | .ok tO =>
          let info := "File Name: " ++ pyStrOpt nO ++ "\n" ++
            "URL: " ++ pyStrOpt uO ++ "\n" ++
            "Column: " ++ pyStrOpt tO ++ "\n\n"
          match fileInfoList column rest with
          | .error e => .error e
          | .ok more => .ok (info :: more)

/-- Body of the `try:` block for one file-type column (document.py:59-67):
parse the JSON-encoded column value and render each listed file. -/
def tryFileColumn (column : Json) : Except PyErr (List String) :=
  match pyGetD column "value" (Json.str "\x7b\x7d") with
  | .error e => .error e
  | .ok v =>
    match jsonLoads v with
    | .error e => .error e
    | .ok file_data =>
      match pyContains "files" file_data with
      | .error e => .error e
      | .ok b =>
        if b then
          match pySubscript file_data "files" with
          | .error e => .error e
          | .ok filesJ =>
            match pyIterate filesJ with
            | .error e => .error e
            | .ok files => fileInfoList column files
        else .ok []

/-- The `for column in item.get("column_values", [])` loop
(document.py:57-69).  `except (json.JSONDecodeError, KeyError): pass`
swallows exactly those two exception kinds; every other exception
propagates. -/
def fileColumnLoop : List Json → Except PyErr (List String)
  | [] => .ok []
  | column :: rest =>
    match pyGet column "type" with
    | .error e => .error e
    | .ok tO =>
      if isFileType tO then
        match pyGet column "value" with
        | .error e => .error e
        | .ok vO =>
          if truthyOpt vO then
            match tryFileColumn column with
            | .ok infos =>
              match fileColumnLoop rest with
              | .error e => .error e
              | .ok more => .ok (infos ++ more)
            | .error (.jsonDecodeError _) => fileColumnLoop rest
            | .error (.keyError _) => fileColumnLoop rest
            | .error e => .error e
          else fileColumnLoop rest
      else fileColumnLoop rest

/-- One asset paragraph (document.py:74-81 and 137-144). -/
def renderAsset (asset : Json) : Except PyErr String :=
  match pyGet asset "name" with
  | .error e => .error e
  | .ok nO =>
    match pyGet asset "url" with
    | .error e => .error e
    | .ok uO =>
      match pyGet asset "public_url" with
      | .error e => .error e
      | .ok pO =>
        match pyGet asset "file_extension" with
        | .error e => .error e
        | .ok eO =>
          match pyGet asset "file_size" with
          | .error e => .error e
          | .ok sO =>
            match pyGet asset "created_at" with
            | .error e => .error e
            | .ok cO =>
              let info := "Asset Name: " ++ pyStrOpt nO ++ "\n" ++ "URL: " ++ pyStrOpt uO ++ "\n"
              let info := if truthyOpt pO then info ++ "Public URL: " ++ pyStrOpt pO ++ "\n" else info
              .ok (info ++ "Type: " ++ pyStrOpt eO ++ "\n" ++
                "Size: " ++ pyStrOpt sO ++ " bytes\n" ++
                "Created: " ++ pyStrOpt cO ++ "\n\n")

/-- The `for asset in ...` loop collecting asset paragraphs. -/
def assetInfos : List Json → Except PyErr (List String)
  | [] => .ok []
  | a :: rest =>
    match renderAsset a with
    | .error e => .error e
    | .ok info =>
      match assetInfos rest with
      | .error e => .error e
      | .ok more => .ok (info :: more)

/-- `handle_monday_get_item_files` after the gateway call
(document.py:48-97). -/
def getItemFilesNormalize (itemId : String) (response : Option Dict) :
    Except PyErr (List TextContent) :=
  match response with
  | none => okText ("No items found with ID " ++ itemId ++ ".")
  | some fields =>
    if fields.isEmpty then okText ("No items found with ID " ++ itemId ++ ".")
    else
      match lookupField fields "data" with
      | none => okText ("No items found with ID " ++ itemId ++ ".")
      | some d =>
        match pySubscript d "items" with
        | .error e => .error e
        | .ok items =>
          if !truthy items then okText ("No items found with ID " ++ itemId ++ ".")
          else
            match pyIndex0 items with
            | .error e => .error e
            | .ok item =>
              match pyGetD item "column_values" (Json.arr []) with
              | .error e => .error e
              | .ok colvals =>
                match pyIterate colvals with
                | .error e => .error e
                | .ok columns =>
                  match fileColumnLoop columns with
                  | .error e => .error e
                  | .ok file_columns =>
                    match pyGetD item "assets" (Json.arr []) with
                    | .error e => .error e
                    | .ok assetsJ =>
                      match pyIterate assetsJ with
                      | .error e => .error e
                      | .ok assets =>
                        match assetInfos assets with
                        | .error e => .error e
                        | .ok asset_files =>
                          if file_columns.isEmpty && asset_files.isEmpty then
                            okText ("No files found for item " ++ itemId ++ ".")
                          else
                            match pyGet item "name" with
                            | .error e => .error e
                            | .ok nameO =>
                              let result := "Files attached to item " ++ itemId ++
                                " (" ++ pyStrOpt nameO ++ "):\n\n"
                              let result := if !file_columns.isEmpty then
                                  result ++ "FILES IN COLUMNS:\n" ++ String.join file_columns ++ "\n"
                                else result
                              let result := if !asset_files.isEmpty then
                                  result ++ "ASSETS:\n" ++ String.join asset_files
                                else result
                              okText result

/-- `handle_monday_get_update_files` after the gateway call
(document.py:127-156). -/
def getUpdateFilesNormalize (updateId : String) (response : Option Dict) :
    Except PyErr (List TextContent) :=
  match response with
  | none => okText ("No update found with ID " ++ updateId ++ ".")
  | some fields =>
    if fields.isEmpty then okText ("No update found with ID " ++ updateId ++ ".")
    else
      match lookupField fields "data" with
      | none => okText ("No update found with ID " ++ updateId ++ ".")
      | some d =>
        match pySubscript d "updates" with
        | .error e => .error e
        | .ok updates =>
          if !truthy updates then okText ("No update found with ID " ++ updateId ++ ".")
          else
            match pyIndex0 updates with
            | .error e => .error e
            | .ok update =>
              match pyGetD update "assets" (Json.arr []) with
              | .error e => .error e
              | .ok assetsJ =>
                match pyIterate assetsJ with
                | .error e => .error e
                | .ok assets =>
                  match assetInfos assets with
                  | .error e => .error e
                  | .ok asset_files =>
                    if asset_files.isEmpty then
                      okText ("No files found for update " ++ updateId ++ ".")
                    else
                      okText ("Files attached to update " ++ updateId ++ ":\n\n" ++
                        String.join asset_files)

/-- One document paragraph of `handle_monday_get_docs` (document.py:190-197). -/
def docParagraph (doc : Json) : Except PyErr String :=
  match pySubscript doc "id" with
  | .error e => .error e
  | .ok idJ =>
    match pySubscript doc "name" with
    | .error e => .error e
    | .ok nameJ =>
      match pySubscript doc "created_at" with
      | .error e => .error e
      | .ok createdJ =>
        match pySubscript doc "workspace_id" with
        | .error e => .error e
        | .ok wsJ =>
          match pyGetD doc "folder_id" (Json.str "None") with
          | .error e => .error e
          | .ok folderJ =>
            match pySubscript doc "user_id" with
            | .error e => .error e
            | .ok userJ =>
              .ok ("Document ID: " ++ pyStr idJ ++ "\n" ++
                "Name: " ++ pyStr nameJ ++ "\n" ++
                "Created: " ++ pyStr createdJ ++ "\n" ++
                "Workspace ID: " ++ pyStr wsJ ++ "\n" ++
                "Folder ID: " ++ pyStr folderJ ++ "\n" ++
                "User ID: " ++ pyStr userJ ++ "\n\n")

/-- The `for doc in docs` loop of `handle_monday_get_docs`. -/
def docParagraphs : List Json → Except PyErr (List String)
  | [] => .ok []
  | doc :: rest =>
    match docParagraph doc with
    | .error e => .error e
    | .ok p =>
      match docParagraphs rest with
      | .error e => .error e
      | .ok more => .ok (p :: more)

/-- `handle_monday_get_docs` after the gateway call (document.py:184-201). -/
def getDocsNormalize (response : Option Dict) : Except PyErr (List TextContent) :=
  match response with
  | none => okText "No documents found."
  | some fields =>
    if fields.isEmpty then okText "No documents found."
    else
      match lookupField fields "data" with
      | none => okText "No documents found."
      | some d =>
        match pySubscript d "docs" with
        | .error e => .error e
        | .ok docs =>
          if !truthy docs then okText "No documents found."
          else
            match pyIterate docs with
            | .error e => .error e
            | .ok docsL =>
              match docParagraphs docsL with
              | .error e => .error e
              | .ok formatted_docs =>
                okText ("Documents:\n\n" ++ String.join formatted_docs)

/-- `handle_monday_get_doc_content` after the gateway call
(document.py:222-239); the source tests `response["data"]["docs"]` twice,
mirrored here. -/
def getDocContentNormalize (doc_id : String) (response : Option Dict) :
    Except PyErr (List TextContent) :=
  match response with
  | none => okText ("Document with ID " ++ doc_id ++ " not found.")
  | some fields =>
    if fields.isEmpty then okText ("Document with ID " ++ doc_id ++ " not found.")
    else
      match lookupField fields "data" with
      | none => okText ("Document with ID " ++ doc_id ++ " not found.")
      | some d =>
        match pySubscript d "docs" with
        | .error e => .error e
        | .ok docs1 =>
          if !truthy docs1 then okText ("Document with ID " ++ doc_id ++ " not found.")
          else
            match pySubscript d "docs" with
            | .error e => .error e
            | .ok docs2 =>
              if !truthy docs2 then okText ("Document with ID " ++ doc_id ++ " not found.")
              else
                match pySubscript d "docs" with
                | .error e => .error e
                | .ok docs3 =>
                  match pyIndex0 docs3 with
                  | .error e => .error e
                  | .ok doc =>
                    match pySubscript doc "id" with
                    | .error e => .error e
                    | .ok idJ =>
                      match pySubscript doc "name" with
                      | .error e => .error e
                      | .ok nameJ =>
                        match pySubscript doc "content" with
                        | .error e => .error e
                        | .ok contentJ =>
                          okText ("Document ID: " ++ pyStr idJ ++ "\nName: " ++ pyStr nameJ ++
                            "\n\nContent:\n" ++ pyStr contentJ)

/-- `handle_monday_create_doc` after the gateway call (document.py:269-280).
`workspaceUrl` is the `MONDAY_WORKSPACE_URL` configuration value
(environment-supplied, imported from `constants.py`). -/
def createDocNormalize (workspaceUrl : String) (response : Option Dict) :
    Except PyErr (List TextContent) :=
  match response with
  | none => okText "Failed to create document."
  | some fields =>
    if fields.isEmpty then okText "Failed to create document."
    else
      match lookupField fields "data" with
      | none => okText "Failed to create document."
      | some d =>
        match pySubscript d "create_doc" with
        | .error e => .error e
        | .ok created =>
          if !truthy created then okText "Failed to create document."
          else
            match pySubscript created "id" with
            | .error e => .error e
            | .ok idJ =>
              let doc_url := workspaceUrl ++ "/docs/d/" ++ pyStr idJ
              match pySubscript created "name" with
              | .error e => .error e
              | .ok nameJ =>
                okText ("Document created successfully!\nTitle: " ++ pyStr nameJ ++
                  "\nID: " ++ pyStr idJ ++ "\nURL: " ++ doc_url)

/-- `handle_monday_add_doc_block` after the gateway call
(document.py:318-328). -/
def addDocBlockNormalize (response : Option Dict) : Except PyErr (List TextContent) :=
  match response with
  | none => okText "Failed to add block to document."
  | some fields =>
    if fields.isEmpty then okText "Failed to add block to document."
    else
      match lookupField fields "data" with
      | none => okText "Failed to add block to document."
      | some d =>
        match pySubscript d "add_doc_block" with
        | .error e => .error e
        | .ok created =>
          if !truthy created then okText "Failed to add block to document."
          else
            match pySubscript created "id" with
            | .error e => .error e
            | .ok idJ =>
              match pySubscript created "type" with
              | .error e => .error e
              | .ok typeJ =>
                okText ("Block added successfully!\nID: " ++ pyStr idJ ++
                  "\nType: " ++ pyStr typeJ)

/-! ### Tool registry and dispatcher (`tools.py`) -/

/-- The `ToolName` string enum (tools.py:34-52). -/
inductive ToolName where
  | LIST_BOARDS
  | GET_BOARD_GROUPS
  | GET_BOARD_COLUMNS
  | CREATE_ITEM
  | UPDATE_ITEM
  | CREATE_UPDATE
  | LIST_ITEMS_IN_GROUPS
  | LIST_SUBITEMS_IN_ITEMS
  | GET_ITEM_UPDATES
  | GET_DOCS
  | GET_DOC_CONTENT
  | CREATE_DOC
  | ADD_DOC_BLOCK
  | GET_ITEM_FILES
  | GET_UPDATE_FILES
deriving DecidableEq, Repr

/-- The string value of each `ToolName` member (it is a `str` Enum, so a
member compares equal to its value). -/
def ToolName.value : ToolName → String
  | .LIST_BOARDS => "monday-list-boards"
  | .GET_BOARD_GROUPS => "monday-get-board-groups"
  | .GET_BOARD_COLUMNS => "monday-get-board-columns"
  | .CREATE_ITEM => "monday-create-item"
  | .UPDATE_ITEM => "monday-update-item"
  | .CREATE_UPDATE => "monday-create-update"
  | .LIST_ITEMS_IN_GROUPS => "monday-list-items-in-groups"
  | .LIST_SUBITEMS_IN_ITEMS => "monday-list-subitems-in-items"
  | .GET_ITEM_UPDATES => "monday-get-item-updates"
  | .GET_DOCS => "monday-get-docs"
  | .GET_DOC_CONTENT => "monday-get-doc-content"
  | .CREATE_DOC => "monday-create-doc"
  | .ADD_DOC_BLOCK => "monday-add-doc-block"
  | .GET_ITEM_FILES => "monday-get-item-files"
  | .GET_UPDATE_FILES => "monday-get-update-files"

/-- A registered tool descriptor (name and description; the JSON-Schema
`inputSchema` objects are carried by the source but inspected by no claim,
so they are not transcribed). -/
structure Tool where
  name : String
  description : String
deriving DecidableEq, Repr

/-- `ServerTools` (tools.py:55-317), in source order. -/
def ServerTools : List Tool :=
  [⟨ToolName.CREATE_ITEM.value,
    "Create a new item in a Monday.com Board. Optionally, specify the parent Item ID to create a Sub-item."⟩,
   ⟨ToolName.UPDATE_ITEM.value,
    "Update a Monday.com item's or sub-item's column values."⟩,
   ⟨ToolName.GET_BOARD_COLUMNS.value,
    "Get the Columns of a Monday.com Board."⟩,
   ⟨ToolName.GET_BOARD_GROUPS.value,
    "Get the Groups of a Monday.com Board."⟩,
   ⟨ToolName.CREATE_UPDATE.value,
    "Create an update (comment) on a Monday.com Item or Sub-item."⟩,
   ⟨ToolName.LIST_BOARDS.value,
    "Get all Boards from Monday.com"⟩,
   ⟨ToolName.LIST_ITEMS_IN_GROUPS.value,
    "List all items in the specified groups of a Monday.com board"⟩,
   ⟨ToolName.LIST_SUBITEMS_IN_ITEMS.value,
    "List all Sub-items of a list of Monday.com Items"⟩,
   ⟨ToolName.GET_ITEM_UPDATES.value,
    "Get updates for a specific item in Monday.com"⟩,
   ⟨ToolName.GET_DOCS.value,
    "Get a list of documents from Monday.com, optionally filtered by folder"⟩,
   ⟨ToolName.GET_DOC_CONTENT.value,
    "Get the content of a specific document by ID"⟩,
   ⟨ToolName.CREATE_DOC.value,
    "Create a new document in Monday.com"⟩,
   ⟨ToolName.ADD_DOC_BLOCK.value,
    "Add a block to a document"⟩,
   ⟨ToolName.GET_ITEM_FILES.value,
    "Get files (PDFs, documents, images, etc.) attached to a Monday.com item"⟩,
   ⟨ToolName.GET_UPDATE_FILES.value,
    "Get files (PDFs, documents, images, etc.) attached to a specific update in Monday.com"⟩]

/-- `handle_list_tools` (tools.py:321-323): returns `ServerTools`. -/
def handle_list_tools : List Tool := ServerTools

/-- The registered tool names, in catalog order. -/
def serverToolNames : List String := ServerTools.map Tool.name

/-- The `match name:` of `handle_call_tool` (tools.py:330-431), in source
case order; a `str` Enum member pattern matches exactly its string value. -/
def matchToolName (name : String) : Option ToolName :=
  if name = ToolName.CREATE_ITEM.value then some .CREATE_ITEM
  else if name = ToolName.GET_BOARD_COLUMNS.value then some .GET_BOARD_COLUMNS
  else if name = ToolName.GET_BOARD_GROUPS.value then some .GET_BOARD_GROUPS
  else if name = ToolName.CREATE_UPDATE.value then some .CREATE_UPDATE
  else if name = ToolName.UPDATE_ITEM.value then some .UPDATE_ITEM
  else if name = ToolName.LIST_BOARDS.value then some .LIST_BOARDS
  else if name = ToolName.LIST_ITEMS_IN_GROUPS.value then some .LIST_ITEMS_IN_GROUPS
  else if name = ToolName.LIST_SUBITEMS_IN_ITEMS.value then some .LIST_SUBITEMS_IN_ITEMS
  else if name = ToolName.GET_ITEM_UPDATES.value then some .GET_ITEM_UPDATES
  else if name = ToolName.GET_DOCS.value then some .GET_DOCS
  else if name = ToolName.GET_DOC_CONTENT.value then some .GET_DOC_CONTENT
  else if name = ToolName.CREATE_DOC.value then some .CREATE_DOC
  else if name = ToolName.ADD_DOC_BLOCK.value then some .ADD_DOC_BLOCK
  else if name = ToolName.GET_ITEM_FILES.value then some .GET_ITEM_FILES
  else if name = ToolName.GET_UPDATE_FILES.value then some .GET_UPDATE_FILES
  else none

/-- Outcome of one `handle_call_tool` invocation: either the matched tool's
handler runs (performing its gateway calls) or the `case _:` branch raises
`ValueError(f"Undefined behaviour for tool: {name}")` — which the
surrounding `except` logs and re-raises — having made no gateway call. -/
structure CallOutcome where
  result : Except String ToolName
  gatewayCalls : Nat
deriving Repr

/-- Each matched handler issues exactly one GraphQL query/mutation through
the gateway (every handler in `document.py` calls
`monday_client.custom._query` once; the spec states one gateway call per
invocation for the board/item handlers as well). -/
def handle_call_tool (name : String) : CallOutcome :=
  match matchToolName name with
  | some t => ⟨.ok t, 1⟩
  | none => ⟨.error ("Undefined behaviour for tool: " ++ name), 0⟩

/-- `arguments.get("limit", 25)` in the `GET_DOCS` dispatch case
(tools.py:390). -/
def getDocsCallLimit (arguments : Dict) : Json :=
  (lookupField arguments "limit").getD (Json.num 25)

/-- `arguments.get("folder_id")` in the `GET_DOCS` dispatch case
(tools.py:391). -/
def getDocsCallFolder (arguments : Dict) : Option Json :=
  lookupField arguments "folder_id"

/-- Modelled from the spec: `handle_monday_list_items_in_groups` lives in
`src/mcp_server_monday/item.py`, which is not part of this snapshot.  Per
the spec the tool paginates with an optional cursor whose GraphQL argument
clause is omitted entirely when the cursor is absent; the clause text here
stands in for the one the missing source renders. -/
def listItemsInGroupsCursorArg : Option String → String
  | some c => if c = "" then "" else ", cursor: \"" ++ c ++ "\""
  | none => ""

/-- Modelled from the spec: the items-page query of
`handle_monday_list_items_in_groups`, with the cursor clause spliced
between a fixed head and tail. -/
def listItemsInGroupsQuery (boardId : String) (limit : Json) (cursor : Option String) : String :=
  "query \x7b boards (ids: " ++ boardId ++ ") \x7b items_page (limit: " ++ pyStr limit ++
  listItemsInGroupsCursorArg cursor ++
  ") \x7b cursor items \x7b id name \x7d \x7d \x7d \x7d"

/-- The "empty or absent" response condition behind each not-found guard:
the response is falsy, lacks a `data` key, or `data` holds the expected
key with a falsy value.  When `data` is present but the expected key is
missing entirely, the guard's own subscript raises `KeyError`, so that
case is `false` here. -/
def respEmptyFor (key : String) (response : Option Dict) : Bool :=
  match response with
  | none => true
  | some fields =>
    if fields.isEmpty then true
    else
      match lookupField fields "data" with
      | none => true
      | some d =>
        match pySubscript d key with
        | .error _ => false
        | .ok v => !truthy v

/-- The fifteen catalog names exactly as the spec lists them (spec §6,
"Tool catalog"); stated from the spec's words, for comparison with the
registered `serverToolNames`. -/
def specCatalogNames : List String :=
  ["list-boards", "get-board-groups", "get-board-columns", "create-item",
   "update-item", "create-update", "list-items-in-groups",
   "list-subitems-in-items", "get-item-updates", "get-docs",
   "get-doc-content", "create-doc", "add-doc-block", "get-item-files",
   "get-update-files"]

/-! ### Helper lemmas -/

theorem isPre_self_append (n t : List Char) : isPre n (n ++ t) = true := by
  induction n with
  | nil => rfl
  | cons a as ih => simp [isPre, ih]

theorem hasSub_of_isPre {n l : List Char} (h : isPre n l = true) : hasSub n l = true := by
  cases l with
  | nil => simpa [hasSub] using h
  | cons c rest => simp [hasSub, h]

theorem hasSub_append_right {n t : List Char} (s : List Char) (h : hasSub n t = true) :
    hasSub n (s ++ t) = true := by
  induction s with
  | nil => simpa using h
  | cons c cs ih =>
    cases t with
    | nil => simpa [hasSub] using Or.inr (by simpa using ih)
    | cons d ds => simp [hasSub]; right; simpa [hasSub] using ih

theorem hasSub_mid (s n t : List Char) : hasSub n (s ++ n ++ t) = true := by
  have h1 : hasSub n (n ++ t) = true := hasSub_of_isPre (isPre_self_append n t)
  simpa [List.append_assoc] using hasSub_append_right s h1

/-- `String.append` concatenates the underlying character lists. -/
@[simp] theorem strData (s t : String) : (s ++ t).data = s.data ++ t.data := rfl

theorem quotesEscAux_escapeQuotesChars (s : List Char) :
    ∀ prev : Char, quotesEscAux prev (escapeQuotesChars s) = true := by
  induction s with
  | nil => intro prev; rfl
  | cons c rest ih =>
    intro prev
    by_cases hc : c = '\"'
    · simp [escapeQuotesChars, hc, quotesEscAux, ih]
    · simp [escapeQuotesChars, hc, quotesEscAux, ih]

theorem assetInfos_ok_ne_nil {assets : List Json} {infos : List String}
    (ha : assets ≠ []) (h : assetInfos assets = .ok infos) : infos ≠ [] := by
  cases assets with
  | nil => exact absurd rfl ha
  | cons a rest =>
    unfold assetInfos at h
    cases hr : renderAsset a with
    | error e => rw [hr] at h; simp at h
    | ok info =>
      rw [hr] at h
      cases hm : assetInfos rest with
      | error e => rw [hm] at h; simp at h
      | ok more =>
        rw [hm] at h
        simp only [Except.ok.injEq] at h
        rw [← h]
        simp

/-! ### Claim theorems -/

/-- C1 counterexample: `handle_monday_create_doc` interpolates the document
title verbatim, so the title `a"b` leaves an unescaped quote in the
`name:` literal of the built mutation (the escaped form `a\"b` appears
nowhere in the document). -/
theorem C1_counterexample :
    hasSub ("name: \"a\"b\"").data (createDocMutation "a\"b" "ok" none).data = true ∧
    hasSub ("a\\\"b").data (createDocMutation "a\"b" "ok" none).data = false := by
  decide

/-- C1 (amended): only the content fields are escaped — for document content
and document-block content every `"` in the value is replaced by `\"`
before interpolation, so every quote in the interpolated content literal is
immediately preceded by a backslash; the document title is interpolated
with no escaping at all. -/
theorem C1_content_escaping :
    (∀ s : String, quotesEsc (escapeQuotes s).data = true) ∧
    (∀ (title content : String) (folder_id : Option String),
      hasSub (("content: \"").data ++ (escapeQuotes content).data ++ ("\"").data)
        (createDocMutation title content folder_id).data = true) ∧
    (∀ (doc_id block_type content : String) (after_block_id : Option String),
      hasSub (("content: \"").data ++ (escapeQuotes content).data ++ ("\"").data)
        (addDocBlockMutation doc_id block_type content after_block_id).data = true) := by
  refine ⟨fun s => quotesEscAux_escapeQuotesChars s.data '\"',
    fun title content fid => ?_, fun did bt content ab => ?_⟩
  · have hsplit : ("\",\n            content: \"" : String).data =
        ("\",\n            ").data ++ ("content: \"").data := by decide
    have hb : (createDocMutation title content fid).data =
        (("\n    mutation \x7b\n        create_doc (\n            name: \"").data ++
          title.data ++ ("\",\n            ").data) ++
        ((("content: \"").data ++ (escapeQuotes content).data ++ ("\"").data)) ++
        ((createDocFolderParam fid).data ++
          ("\n        ) \x7b\n            id\n            name\n        \x7d\n    \x7d\n    ").data) := by
      simp [createDocMutation, hsplit]
    rw [hb]
    exact hasSub_mid _ _ _
  · have hsplit : (",\n            content: \"" : String).data =
        (",\n            ").data ++ ("content: \"").data := by decide
    have hb : (addDocBlockMutation did bt content ab).data =
        (("\n    mutation \x7b\n        add_doc_block (\n            doc_id: ").data ++
          did.data ++ (",\n            type: ").data ++ bt.data ++ (",\n            ").data) ++
        ((("content: \"").data ++ (escapeQuotes content).data ++ ("\"").data)) ++
        ((addDocBlockAfterParam ab).data ++
          ("\n        ) \x7b\n            id\n            type\n        \x7d\n    \x7d\n    ").data) := by
      simp [addDocBlockMutation, hsplit]
    rw [hb]
    exact hasSub_mid _ _ _

/-- C2: a tool name outside the registered catalog makes `handle_call_tool`
fail with the `Undefined behaviour for tool` `ValueError`, with zero
gateway calls made. -/
theorem C2_unknown_tool_rejected (name : String) (h : name ∉ serverToolNames) :
    handle_call_tool name =
      ⟨.error ("Undefined behaviour for tool: " ++ name), 0⟩ := by
  simp only [serverToolNames, ServerTools, ToolName.value, List.map_cons, List.map_nil,
    List.mem_cons, not_or] at h
  obtain ⟨h1, h2, h3, h4, h5, h6, h7, h8, h9, h10, h11, h12, h13, h14, h15, -⟩ := h
  simp [handle_call_tool, matchToolName, ToolName.value,
    h1, h2, h3, h4, h5, h6, h7, h8, h9, h10, h11, h12, h13, h14, h15]

/-- Witness for C2 at the concrete unregistered name `monday-delete-board`. -/
theorem C2_unknown_tool_rejected_witness :
    "monday-delete-board" ∉ serverToolNames ∧
    handle_call_tool "monday-delete-board" =
      ⟨.error ("Undefined behaviour for tool: " ++ "monday-delete-board"), 0⟩ :=
  ⟨by decide, C2_unknown_tool_rejected "monday-delete-board" (by decide)⟩

/-- C3 counterexample: when the response has a `data` object that lacks the
expected `items` key entirely, `handle_monday_get_item_files` raises
`KeyError` instead of returning a not-found block. -/
theorem C3_counterexample :
    getItemFilesNormalize "1" (some [("data", Json.obj [])]) =
      Except.error (PyErr.keyError "items") := rfl

/-- C3 (amended): when the response is absent, lacks a `data` key, or holds
the expected top-level key with an empty/falsy value, each lookup handler
returns exactly one text block with its not-found message naming the
requested identifier, without raising; a `data` object missing the
expected key instead raises `KeyError`. -/
theorem C3_not_found_blocks :
    (∀ (itemId : String) (response : Option Dict),
      respEmptyFor "items" response = true →
      getItemFilesNormalize itemId response =
        Except.ok [⟨"text", "No items found with ID " ++ itemId ++ "."⟩]) ∧
    (∀ (updateId : String) (response : Option Dict),
      respEmptyFor "updates" response = true →
      getUpdateFilesNormalize updateId response =
        Except.ok [⟨"text", "No update found with ID " ++ updateId ++ "."⟩]) ∧
    (∀ (doc_id : String) (response : Option Dict),
      respEmptyFor "docs" response = true →
      getDocContentNormalize doc_id response =
        Except.ok [⟨"text", "Document with ID " ++ doc_id ++ " not found."⟩]) := by
  refine ⟨fun itemId response h => ?_, fun updateId response h => ?_,
    fun doc_id response h => ?_⟩
  · cases response with
    | none => rfl
    | some fields =>
      by_cases hf : fields.isEmpty
      · simp [getItemFilesNormalize, hf, okText]
      · cases hdata : lookupField fields "data" with
        | none => simp [getItemFilesNormalize, hf, hdata, okText]
        | some d =>
          cases hsub : pySubscript d "items" with
          | error e => exfalso; simp [respEmptyFor, hf, hdata, hsub] at h
          | ok v =>
            have hv : truthy v = false := by
              simpa [respEmptyFor, hf, hdata, hsub] using h
            simp [getItemFilesNormalize, hf, hdata, hsub, hv, okText]
  · cases response with
    | none => rfl
    | some fields =>
      by_cases hf : fields.isEmpty
      · simp [getUpdateFilesNormalize, hf, okText]
      · cases hdata : lookupField fields "data" with
        | none => simp [getUpdateFilesNormalize, hf, hdata, okText]
        | some d =>
          cases hsub : pySubscript d "updates" with
          | error e => exfalso; simp [respEmptyFor, hf, hdata, hsub] at h
          | ok v =>
            have hv : truthy v = false := by
              simpa [respEmptyFor, hf, hdata, hsub] using h
            simp [getUpdateFilesNormalize, hf, hdata, hsub, hv, okText]
  · cases response with
    | none => rfl
    | some fields =>
      by_cases hf : fields.isEmpty
      · simp [getDocContentNormalize, hf, okText]
      · cases hdata : lookupField fields "data" with
        | none => simp [getDocContentNormalize, hf, hdata, okText]
        | some d =>
          cases hsub : pySubscript d "docs" with
          | error e => exfalso; simp [respEmptyFor, hf, hdata, hsub] at h
          | ok v =>
            have hv : truthy v = false := by
              simpa [respEmptyFor, hf, hdata, hsub] using h
            simp [getDocContentNormalize, hf, hdata, hsub, hv, okText]

/-- Witness for C3 (amended) at three concrete empty responses. -/
theorem C3_not_found_blocks_witness :
    getItemFilesNormalize "7" none =
      Except.ok [⟨"text", "No items found with ID " ++ "7" ++ "."⟩] ∧
    getUpdateFilesNormalize "8" (some [("data", Json.obj [("updates", Json.arr [])])]) =
      Except.ok [⟨"text", "No update found with ID " ++ "8" ++ "."⟩] ∧
    getDocContentNormalize "9" (some [("data", Json.obj [("docs", Json.null)])]) =
      Except.ok [⟨"text", "Document with ID " ++ "9" ++ " not found."⟩] :=
  ⟨C3_not_found_blocks.1 "7" none (by decide),
   C3_not_found_blocks.2.1 "8" (some [("data", Json.obj [("updates", Json.arr [])])]) (by decide),
   C3_not_found_blocks.2.2 "9" (some [("data", Json.obj [("docs", Json.null)])]) (by decide)⟩

/-- C4 counterexample: the registered tool names carry a `monday-` prefix,
so the bare spec-listed name `list-boards` is not among the names
`handle_list_tools` returns. -/
theorem C4_counterexample :
    ¬ ("list-boards" ∈ handle_list_tools.map Tool.name) := by decide

/-- C4 (amended): the names returned by `handle_list_tools` are exactly the
fifteen spec-listed catalog names, each prefixed with `monday-`. -/
theorem C4_catalog_names :
    List.Perm (handle_list_tools.map Tool.name)
      (specCatalogNames.map fun s => "monday-" ++ s) := by decide

/-- C5: a get-item-files response whose single file-type column holds a
truthy string value that `json.loads` rejects, alongside at least one
renderable asset, normalizes without raising to a single block describing
only the assets — the malformed column contributes nothing. -/
theorem C5_malformed_column_skipped
    (itemId name v msg : String) (assets : List Json) (infos : List String)
    (hv : v ≠ "") (hparse : jsonParse v = .error msg)
    (hassets : assets ≠ []) (hrender : assetInfos assets = .ok infos) :
    getItemFilesNormalize itemId
      (some [("data", Json.obj [("items",
        Json.arr [Json.obj [("name", Json.str name),
          ("column_values", Json.arr [Json.obj [("type", Json.str "file"), ("value", Json.str v)]]),
          ("assets", Json.arr assets)]])])]) =
      Except.ok [⟨"text",
        "Files attached to item " ++ itemId ++ " (" ++ name ++ "):\n\n" ++
        "ASSETS:\n" ++ String.join infos⟩] := by
  have hinfos : infos.isEmpty = false := by
    have hne := assetInfos_ok_ne_nil hassets hrender
    cases infos with
    | nil => exact absurd rfl hne
    | cons a b => rfl
  simp [getItemFilesNormalize, lookupField, pySubscript, truthy, pyIndex0, pyGetD,
    pyIterate, fileColumnLoop, pyGet, isFileType, truthyOpt, tryFileColumn, jsonLoads,
    hparse, hrender, hv, hinfos, okText, pyStrOpt, pyStr]

/-- Witness for C5: the invalid JSON column value `not json` next to one
concrete asset. -/
theorem C5_malformed_column_skipped_witness :
    getItemFilesNormalize "1"
      (some [("data", Json.obj [("items",
        Json.arr [Json.obj [("name", Json.str "Board item"),
          ("column_values", Json.arr [Json.obj [("type", Json.str "file"),
            ("value", Json.str "not json")]]),
          ("assets", Json.arr [Json.obj [("name", Json.str "report.pdf"),
            ("url", Json.str "https://x/a"), ("public_url", Json.null),
            ("file_extension", Json.str "pdf"), ("file_size", Json.str "10"),
            ("created_at", Json.str "2024-01-01")]])]])])]) =
      Except.ok [⟨"text",
        "Files attached to item " ++ "1" ++ " (" ++ "Board item" ++ "):\n\n" ++
        "ASSETS:\n" ++ String.join
          ["Asset Name: report.pdf\nURL: https://x/a\nType: pdf\nSize: 10 bytes\nCreated: 2024-01-01\n\n"]⟩] :=
  C5_malformed_column_skipped "1" "Board item" "not json" "Expecting value"
    [Json.obj [("name", Json.str "report.pdf"), ("url", Json.str "https://x/a"),
      ("public_url", Json.null), ("file_extension", Json.str "pdf"),
      ("file_size", Json.str "10"), ("created_at", Json.str "2024-01-01")]]
    ["Asset Name: report.pdf\nURL: https://x/a\nType: pdf\nSize: 10 bytes\nCreated: 2024-01-01\n\n"]
    (by decide) (by rfl) (List.cons_ne_nil _ _) (by rfl)

/-- C6 counterexample: a get-docs invocation with no `limit` argument is
dispatched with the default value 25, and the built document renders the
clause `limit: 25` — the limit clause is not omitted but rendered with a
default. -/
theorem C6_counterexample :
    getDocsCallLimit [] = Json.num 25 ∧
    hasSub ("limit: 25").data (getDocsQuery (Json.num 25) none).data = true :=
  ⟨rfl, by decide⟩

/-- C6 (amended): the folder-id, after-block-id and pagination-cursor
clauses are spliced in verbatim when the argument is present and omitted
entirely — contributing no text at all — when it is absent; the limit
clause is always rendered, with the dispatcher supplying the default 25
when the argument is absent. -/
theorem C6_optional_clauses :
    (∀ (limit : Json) (f : String), f ≠ "" →
      ∃ pre post,
        (getDocsQuery limit (some f)).data =
          pre ++ ("filter: \x7bfolder_id: ").data ++ f.data ++ ("\x7d").data ++ post ∧
        (getDocsQuery limit none).data = pre ++ post) ∧
    (∀ (title content f : String), f ≠ "" →
      ∃ pre post,
        (createDocMutation title content (some f)).data =
          pre ++ (", folder_id: ").data ++ f.data ++ post ∧
        (createDocMutation title content none).data = pre ++ post) ∧
    (∀ (doc_id block_type content a : String), a ≠ "" →
      ∃ pre post,
        (addDocBlockMutation doc_id block_type content (some a)).data =
          pre ++ (", after_block_id: ").data ++ a.data ++ post ∧
        (addDocBlockMutation doc_id block_type content none).data = pre ++ post) ∧
    (∀ (boardId : String) (limit : Json) (c : String), c ≠ "" →
      ∃ pre post,
        (listItemsInGroupsQuery boardId limit (some c)).data =
          pre ++ (", cursor: \"").data ++ c.data ++ ("\"").data ++ post ∧
        (listItemsInGroupsQuery boardId limit none).data = pre ++ post) ∧
    (getDocsCallLimit [] = Json.num 25 ∧
      hasSub ("docs (limit: 25 )").data (getDocsQuery (getDocsCallLimit []) none).data = true) := by
  refine ⟨fun limit f hf => ?_, fun title content f hf => ?_,
    fun doc_id block_type content a ha => ?_, fun boardId limit c hc => ?_,
    rfl, by decide⟩
  · refine ⟨("\n    query \x7b\n        docs (limit: ").data ++ (pyStr limit).data ++ (" ").data,
      (") \x7b\n            id\n            name\n            created_at\n            workspace_id\n            folder_id\n            user_id\n        \x7d\n    \x7d\n    ").data,
      ?_, ?_⟩
    · simp [getDocsQuery, getDocsFolderFilter, hf]
    · simp [getDocsQuery, getDocsFolderFilter]
  · refine ⟨("\n    mutation \x7b\n        create_doc (\n            name: \"").data ++
      title.data ++ ("\",\n            content: \"").data ++ (escapeQuotes content).data ++
      ("\"").data,
      ("\n        ) \x7b\n            id\n            name\n        \x7d\n    \x7d\n    ").data,
      ?_, ?_⟩
    · simp [createDocMutation, createDocFolderParam, hf]
    · simp [createDocMutation, createDocFolderParam]
  · refine ⟨("\n    mutation \x7b\n        add_doc_block (\n            doc_id: ").data ++
      doc_id.data ++ (",\n            type: ").data ++ block_type.data ++
      (",\n            content: \"").data ++ (escapeQuotes content).data ++ ("\"").data,
      ("\n        ) \x7b\n            id\n            type\n        \x7d\n    \x7d\n    ").data,
      ?_, ?_⟩
    · simp [addDocBlockMutation, addDocBlockAfterParam, ha]
    · simp [addDocBlockMutation, addDocBlockAfterParam]
  · refine ⟨("query \x7b boards (ids: ").data ++ boardId.data ++
      (") \x7b items_page (limit: ").data ++ (pyStr limit).data,
      (") \x7b cursor items \x7b id name \x7d \x7d \x7d \x7d").data, ?_, ?_⟩
    · simp [listItemsInGroupsQuery, listItemsInGroupsCursorArg, hc]
    · simp [listItemsInGroupsQuery, listItemsInGroupsCursorArg]

/-- Witness for C6 (amended) at concrete optional-argument values. -/
theorem C6_optional_clauses_witness :
    (∃ pre post,
      (getDocsQuery (Json.num 25) (some "77")).data =
        pre ++ ("filter: \x7bfolder_id: ").data ++ ("77").data ++ ("\x7d").data ++ post ∧
      (getDocsQuery (Json.num 25) none).data = pre ++ post) ∧
    (∃ pre post,
      (createDocMutation "T" "C" (some "9")).data =
        pre ++ (", folder_id: ").data ++ ("9").data ++ post ∧
      (createDocMutation "T" "C" none).data = pre ++ post) ∧
    (∃ pre post,
      (addDocBlockMutation "5" "normal_text" "C" (some "3")).data =
        pre ++ (", after_block_id: ").data ++ ("3").data ++ post ∧
      (addDocBlockMutation "5" "normal_text" "C" none).data = pre ++ post) ∧
    (∃ pre post,
      (listItemsInGroupsQuery "1" (Json.num 25) (some "cur")).data =
        pre ++ (", cursor: \"").data ++ ("cur").data ++ ("\"").data ++ post ∧
      (listItemsInGroupsQuery "1" (Json.num 25) none).data = pre ++ post) :=
  ⟨C6_optional_clauses.1 (Json.num 25) "77" (by decide),
   C6_optional_clauses.2.1 "T" "C" "9" (by decide),
   C6_optional_clauses.2.2.1 "5" "normal_text" "C" "3" (by decide),
   C6_optional_clauses.2.2.2.1 "1" (Json.num 25) "cur" (by decide)⟩

/-- C7: the get-docs response `{"data": {"docs": []}}` normalizes to exactly
one ContentBlock whose text is `No documents found.` and nothing else. -/
theorem C7_get_docs_empty :
    getDocsNormalize (some [("data", Json.obj [("docs", Json.arr [])])]) =
      Except.ok [⟨"text", "No documents found."⟩] := rfl

/-- C8: every successful create-doc normalization renders one block whose
text contains `{workspace_base_url}/docs/d/{created_doc_id}`; in
particular, for the response `{"data":{"create_doc":{"id":"55","name":"Plan"}}}`
and workspace base `https://acme.monday.com` the text contains
`https://acme.monday.com/docs/d/55`. -/
theorem C8_create_doc_url :
    (∀ (workspaceUrl : String) (idJ nameJ : Json),
      ∃ t, createDocNormalize workspaceUrl
          (some [("data", Json.obj [("create_doc",
            Json.obj [("id", idJ), ("name", nameJ)])])]) =
          Except.ok [⟨"text", t⟩] ∧
        hasSub (workspaceUrl ++ "/docs/d/" ++ pyStr idJ).data t.data = true) ∧
    (∃ t, createDocNormalize "https://acme.monday.com"
        (some [("data", Json.obj [("create_doc",
          Json.obj [("id", Json.str "55"), ("name", Json.str "Plan")])])]) =
        Except.ok [⟨"text", t⟩] ∧
      hasSub ("https://acme.monday.com/docs/d/55").data t.data = true) := by
  constructor
  · intro workspaceUrl idJ nameJ
    refine ⟨"Document created successfully!\nTitle: " ++ pyStr nameJ ++ "\nID: " ++
      pyStr idJ ++ "\nURL: " ++ (workspaceUrl ++ "/docs/d/" ++ pyStr idJ), ?_, ?_⟩
    · simp [createDocNormalize, lookupField, pySubscript, truthy, okText]
    · have hsplit : ("Document created successfully!\nTitle: " ++ pyStr nameJ ++ "\nID: " ++
          pyStr idJ ++ "\nURL: " ++ (workspaceUrl ++ "/docs/d/" ++ pyStr idJ)).data =
          (("Document created successfully!\nTitle: ").data ++ (pyStr nameJ).data ++
            ("\nID: ").data ++ (pyStr idJ).data ++ ("\nURL: ").data) ++
          (workspaceUrl ++ "/docs/d/" ++ pyStr idJ).data ++ [] := by simp
      rw [hsplit]
      exact hasSub_mid _ _ _
  · exact ⟨"Document created successfully!\nTitle: Plan\nID: 55\nURL: https://acme.monday.com/docs/d/55",
      by rfl, by decide⟩

/-- C9: the query builders are deterministic functions of their arguments —
identical argument values yield byte-identical query text. -/
theorem C9_builder_deterministic
    (l1 l2 : Json) (f1 f2 : Option String) (i1 i2 : String)
    (hl : l1 = l2) (hf : f1 = f2) (hi : i1 = i2) :
    getDocsQuery l1 f1 = getDocsQuery l2 f2 ∧
    getItemFilesQuery i1 = getItemFilesQuery i2 := by
  subst hl; subst hf; subst hi; exact ⟨rfl, rfl⟩

/-- Witness for C9 at concrete arguments. -/
theorem C9_builder_deterministic_witness :
    getDocsQuery (Json.num 25) none = getDocsQuery (Json.num 25) none ∧
    getItemFilesQuery "42" = getItemFilesQuery "42" :=
  C9_builder_deterministic (Json.num 25) (Json.num 25) none none "42" "42" rfl rfl rfl

/-- C10: whenever a document/file handler returns (rather than raising), it
returns exactly one ContentBlock, of kind `text`, on the populated and the
empty paths alike. -/
theorem C10_single_text_block :
    (∀ (itemId : String) (r : Option Dict) (bs : List TextContent),
      getItemFilesNormalize itemId r = .ok bs → ∃ t, bs = [⟨"text", t⟩]) ∧
    (∀ (updateId : String) (r : Option Dict) (bs : List TextContent),
      getUpdateFilesNormalize updateId r = .ok bs → ∃ t, bs = [⟨"text", t⟩]) ∧
    (∀ (r : Option Dict) (bs : List TextContent),
      getDocsNormalize r = .ok bs → ∃ t, bs = [⟨"text", t⟩]) ∧
    (∀ (doc_id : String) (r : Option Dict) (bs : List TextContent),
      getDocContentNormalize doc_id r = .ok bs → ∃ t, bs = [⟨"text", t⟩]) ∧
    (∀ (workspaceUrl : String) (r : Option Dict) (bs : List TextContent),
      createDocNormalize workspaceUrl r = .ok bs → ∃ t, bs = [⟨"text", t⟩]) ∧
    (∀ (r : Option Dict) (bs : List TextContent),
      addDocBlockNormalize r = .ok bs → ∃ t, bs = [⟨"text", t⟩]) := by
  refine ⟨?_, ?_, ?_, ?_, ?_, ?_⟩
  · intro itemId r bs h
    unfold getItemFilesNormalize at h
    repeat' split at h
    all_goals (first
      | (simp only [okText, Except.ok.injEq] at h; exact ⟨_, h.symm⟩)
      | exact absurd h (by simp))
  · intro updateId r bs h
    unfold getUpdateFilesNormalize at h
    repeat' split at h
    all_goals (first
      | (simp only [okText, Except.ok.injEq] at h; exact ⟨_, h.symm⟩)
      | exact absurd h (by simp))
  · intro r bs h
    unfold getDocsNormalize at h
    repeat' split at h
    all_goals (first
      | (simp only [okText, Except.ok.injEq] at h; exact ⟨_, h.symm⟩)
      | exact absurd h (by simp))
  · intro doc_id r bs h
    unfold getDocContentNormalize at h
    repeat' split at h
    all_goals (first
      | (simp only [okText, Except.ok.injEq] at h; exact ⟨_, h.symm⟩)
      | exact absurd h (by simp))
  · intro workspaceUrl r bs h
    unfold createDocNormalize at h
    repeat' split at h
    all_goals (first
      | (simp only [okText, Except.ok.injEq] at h; exact ⟨_, h.symm⟩)
      | exact absurd h (by simp))
  · intro r bs h
    unfold addDocBlockNormalize at h
    repeat' split at h
    all_goals (first
      | (simp only [okText, Except.ok.injEq] at h; exact ⟨_, h.symm⟩)
      | exact absurd h (by simp))

/-- Witness for C10 at two concrete handler calls. -/
theorem C10_single_text_block_witness :
    (∃ t, ([⟨"text", "No items found with ID " ++ "3" ++ "."⟩] : List TextContent) =
      [⟨"text", t⟩]) ∧
    (∃ t, ([⟨"text", "No documents found."⟩] : List TextContent) = [⟨"text", t⟩]) :=
  ⟨C10_single_text_block.1 "3" none [⟨"text", "No items found with ID " ++ "3" ++ "."⟩] rfl,
   C10_single_text_block.2.2.1 none [⟨"text", "No documents found."⟩] rfl⟩
